import Mathlib

/-!
Verification of the accident-damage-detection pricing and upload flow.

Shallow embedding of `app.py` from the accident-damage-detection repository:
the part-name resolution table, the price calculator, the startup data loader
and the `/predict` POST request handler. Python's dynamic values relevant to
the class-identifier argument are modelled by `PyVal` (integers, strings and
`None`); Python exceptions are modelled by `Except`. Dictionaries are modelled
as association lists in insertion order, with Python's overwrite-keeps-position
update semantics.
-/

set_option linter.unusedVariables false

namespace AccidentApp

/-- Python values that can reach `get_part_name_from_id` as a class identifier:
integers, strings and `None`. -/
inductive PyVal where
  | int (n : Int)
  | str (s : String)
  | pynone
deriving DecidableEq, Repr

/-- The Python exceptions that `int(...)` can raise. -/
inductive PyErr where
  | valueError
  | typeError
deriving DecidableEq, Repr

/-- The message text carried by the exception (used when it is interpolated
into the handler's generic error message). -/
def PyErr.msg : PyErr → String
  | .valueError => "invalid literal for int() with base 10"
  | .typeError => "int() argument must be a string, a bytes-like object or a real number"

/-- Accumulate a run of decimal digits; `none` as soon as a non-digit
appears. -/
def parseNatAux : List Char → Nat → Option Nat
  | [], acc => some acc
  | c :: cs, acc =>
    if c.isDigit then parseNatAux cs (acc * 10 + (c.toNat - '0'.toNat))
    else none

/-- Integer parsing as Python's `int` does on a string: an optional sign
followed by at least one decimal digit; anything else is no parse
(`ValueError`). -/
def pyParseInt (s : String) : Option Int :=
  match s.data with
  | [] => none
  | '-' :: cs =>
    if cs.isEmpty then none
    else (parseNatAux cs 0).map (fun k => -(k : Int))
  | '+' :: cs =>
    if cs.isEmpty then none
    else (parseNatAux cs 0).map (fun k => (k : Int))
  | cs => (parseNatAux cs 0).map (fun k => (k : Int))

/-- Python's `int(x)` on a `PyVal`: an integer converts to itself, a string is
parsed (raising `ValueError` when it is not a numeral), `None` raises
`TypeError`. -/
def pyint : PyVal → Except PyErr Int
  | .int n => .ok n
  | .str s =>
    match pyParseInt s with
    | some n => .ok n
    | none => .error .valueError
  | .pynone => .error .typeError

/-- Python list indexing `xs[n]` with an `Int` index: nonnegative indices work
from the front, negative indices from the back, and anything out of range is
`none` (Python's `IndexError`). -/
def pyIndex (xs : List String) (n : Int) : Option String :=
  if 0 ≤ n then xs.get? n.toNat
  else if 0 ≤ n + xs.length then xs.get? (n + xs.length).toNat
  else none

/-- The fixed class-id-to-part-name table of `get_part_name_from_id`. -/
def class_names : List String :=
  ["Bonnet", "Bumper", "Dickey", "Door", "Fender", "Light", "Windshield"]

/-- The function `get_part_name_from_id` from `app.py`: `class_names[int(class_id)]` inside
`try ... except (IndexError, TypeError): return None`. `IndexError` (the index
is out of range) and `TypeError` (from `int(None)`) are caught and yield
`none`; `ValueError` (from `int` on a non-numeral string) is not in the except
clause and propagates. -/
def get_part_name_from_id (class_id : PyVal) : Except PyErr (Option String) :=
  match pyint class_id with
  | .ok n => .ok (pyIndex class_names n)
  | .error .typeError => .ok none
  | .error .valueError => .error .valueError

/-- One line of the returned price breakdown:
`{'count': count, 'price': price_per_part, 'total': total_price}`. -/
structure PriceEntry where
  count : Nat
  price : Int
  total : Int
deriving DecidableEq, Repr

/-- A model's price map: part name → unit price, in insertion order. -/
abbrev PriceMap := List (String × Int)

/-- A brand's entry: model name → price map. -/
abbrev ModelMap := List (String × PriceMap)

/-- brand → model → price map, the shape of `CAR_PRICES`. -/
abbrev PriceTable := List (String × ModelMap)

/-- The breakdown built by `calculate_prices`, in insertion order. -/
abbrev Breakdown := List (String × PriceEntry)

/-- Python `d[key]` / `d.get(key)` on a dict modelled as an association
list. -/
def dictGet {β : Type} : List (String × β) → String → Option β
  | [], _ => none
  | (k, v) :: rest, key => if k = key then some v else dictGet rest key

/-- Python `key in d`. -/
def dictHas {β : Type} (d : List (String × β)) (key : String) : Bool :=
  (dictGet d key).isSome

/-- Python `d[key] = v`: overwriting an existing key keeps its position,
a new key is appended at the end. -/
def dictInsert {β : Type} (d : List (String × β)) (key : String) (v : β) :
    List (String × β) :=
  if d.any (fun p => p.1 = key) then
    d.map (fun p => if p.1 = key then (key, v) else p)
  else
    d ++ [(key, v)]

/-- The `for class_id, count in class_counts.items()` loop body of
`calculate_prices`, threading the breakdown dict being built. A `ValueError`
escaping `get_part_name_from_id` aborts the whole loop (the source has no
handler around the call). -/
def calcLoop (model_prices : PriceMap) :
    List (PyVal × Nat) → Breakdown → Except PyErr Breakdown
  | [], prices => .ok prices
  | (class_id, count) :: rest, prices =>
    match get_part_name_from_id class_id with
    | .error e => .error e
    | .ok part_name =>
      match part_name with
      | some name =>
        match dictGet model_prices name with
        | some price_per_part =>
          calcLoop model_prices rest
            (dictInsert prices name
              ⟨count, price_per_part, price_per_part * count⟩)
        | none =>
          -- `elif part_name:` — warning printed, entry skipped
          calcLoop model_prices rest prices
      | none =>
        -- unresolved class id: skipped silently
        calcLoop model_prices rest prices

/-- The function `calculate_prices(car_brand, car_model, class_counts)` from `app.py`,
with the global `CAR_PRICES` passed explicitly. Returns `.ok {}` when the
brand or the model is missing, otherwise iterates the class counts. -/
def calculate_prices (car_prices : PriceTable) (car_brand car_model : String)
    (class_counts : List (PyVal × Nat)) : Except PyErr Breakdown :=
  match dictGet car_prices car_brand with
  | none => .ok []
  | some brand_models =>
    match dictGet brand_models car_model with
    | none => .ok []
    | some model_prices => calcLoop model_prices class_counts []

/-- State-passing form of `calculate_prices`: the global `CAR_PRICES` and the
`class_counts` argument are threaded through the call. The body of lines
71–97 of `app.py` contains no assignment to `CAR_PRICES` and no mutation of
`class_counts` (both are only read; the breakdown is a freshly created dict),
so the post-state components are the pre-state ones. -/
def calculate_prices_run (car_prices : PriceTable) (car_brand car_model : String)
    (class_counts : List (PyVal × Nat)) :
    (PriceTable × List (PyVal × Nat)) × Except PyErr Breakdown :=
  ((car_prices, class_counts),
   calculate_prices car_prices car_brand car_model class_counts)

/-! ## Spec-side description of the breakdown (for the refinement theorem) -/

/-- Spec side: the part name and unit price a class id contributes, when it
resolves (without an exception) to a part name that has a price in the model's
price map. -/
def resolvedPriced (model_prices : PriceMap) (class_id : PyVal) :
    Option (String × Int) :=
  match get_part_name_from_id class_id with
  | .ok (some name) => (dictGet model_prices name).map (fun price => (name, price))
  | _ => none

/-- Spec side: one breakdown entry per class id that resolves to a priced part
name, in iteration order, with `total = unitPrice * count`. -/
def specBreakdown (model_prices : PriceMap) (class_counts : List (PyVal × Nat)) :
    Breakdown :=
  class_counts.filterMap fun p =>
    (resolvedPriced model_prices p.1).map fun q =>
      (q.1, ⟨p.2, q.2, q.2 * p.2⟩)

/-- The part names contributed by a class-count list (spec side). -/
def resolvedNames (model_prices : PriceMap) (class_counts : List (PyVal × Nat)) :
    List String :=
  class_counts.filterMap fun p => (resolvedPriced model_prices p.1).map Prod.fst

/-! ## Startup data loading (`load_data`) -/

/-- The process-wide state set up at startup: `CAR_PRICES` and
`AVAILABLE_BRANDS`. -/
structure AppState where
  car_prices : PriceTable
  available_brands : List String
deriving DecidableEq, Repr

/-- The state before `load_data` runs: both globals empty. -/
def initState : AppState := ⟨[], []⟩

/-- Outcome of `open(PRICE_JSON_PATH)` + `json.load`: the file may be missing
(`FileNotFoundError`), unparsable (`json.JSONDecodeError`), or parse to a
price table. -/
inductive LoadResult where
  | fileNotFound
  | jsonDecodeError
  | parsed (table : PriceTable)

/-- Python `sorted` on a list of strings. -/
def sortedStrings (l : List String) : List String :=
  List.insertionSort (· ≤ ·) l

/-- The function `load_data` from `app.py`: on a successful parse it sets `CAR_PRICES` and
`AVAILABLE_BRANDS = sorted(list(CAR_PRICES.keys()))`; on `FileNotFoundError`
or `JSONDecodeError` it only prints an error, leaving both globals as they
were. -/
def load_data (r : LoadResult) (st : AppState) : AppState :=
  match r with
  | .parsed table => ⟨table, sortedStrings (table.map Prod.fst)⟩
  | .fileNotFound => st
  | .jsonDecodeError => st

/-! ## The `/predict` POST handler -/

/-- An uploaded file: its client-supplied name and its byte content
(abstracted to a `Nat` identifying the exact bytes). -/
structure UploadedFile where
  filename : String
  content : Nat
deriving DecidableEq, Repr

/-- The POST form data: `request.files.get('image')`,
`request.form.get('car_brand')`, `request.form.get('car_model')`. -/
structure PostRequest where
  image : Option UploadedFile
  car_brand : Option String
  car_model : Option String

/-- Python truthiness of `request.form.get(...)`: `None` and the empty string
are falsy. -/
def pyTruthyStr : Option String → Bool
  | some s => s ≠ ""
  | none => false

/-- The server's upload directory, modelled as path → file content. Writing
prepends; reading finds the most recent write. -/
abbrev FS := List (String × Nat)

/-- Write a file (`file.save` / `result.save` / `shutil.copyfile` target). -/
def fsWrite (fs : FS) (path : String) (content : Nat) : FS :=
  (path, content) :: fs

/-- Read a file's content, `none` when the path does not exist. -/
def fsRead (fs : FS) (path : String) : Option Nat :=
  match fs.find? (fun p => p.1 = path) with
  | some p => some p.2
  | none => none

/-- The two templates the POST handler can render; both are served with
HTTP 200. -/
inductive Response where
  | predictPage (error : Option String)
  | estimatePage (original_image detected_image : String)
      (part_prices : Breakdown) (brand model : String)
deriving DecidableEq, Repr

/-- HTTP status of a rendered template: `render_template` always yields
200. -/
def Response.status : Response → Nat
  | _ => 200

/-- Flask's `url_for('static', filename=...)`. -/
def static_url (filename : String) : String := "/static/" ++ filename

/-- The configured `UPLOAD_FOLDER`. -/
def UPLOAD_FOLDER : String := "static/uploads"

/-- ASCII lower-casing of one character, as Python's `str.lower()` does on
the ASCII range filenames are made of after `secure_filename`. -/
def lowerChar (c : Char) : Char :=
  if 'A' ≤ c ∧ c ≤ 'Z' then Char.ofNat (c.toNat + 32) else c

/-- Python `s.lower()` over the character list. -/
def lowerStr (s : String) : String := ⟨s.data.map lowerChar⟩

/-- Python `s.endswith(suffix)` over the character lists. -/
def endsWithStr (s suffix : String) : Bool :=
  suffix.data.isSuffixOf s.data

/-- The check `filename.lower().endswith(('.png', '.jpg', '.jpeg'))`. -/
def allowed_extension (filename : String) : Bool :=
  endsWithStr (lowerStr filename) ".png" ||
  endsWithStr (lowerStr filename) ".jpg" ||
  endsWithStr (lowerStr filename) ".jpeg"

/-- Outcome of a call into an external library (file I/O, the YOLO model):
either a value or a raised exception carrying a message. -/
inductive ExtResult (α : Type) where
  | ok (val : α)
  | exn (msg : String)
deriving DecidableEq, Repr

/-- Oracle fixing the outcomes of the external calls made inside the `try`
block of one POST request: `os.urandom(8).hex()`, `file.save`,
`MODEL(path)` (its list of detected class ids; `[]` covers both an empty
result list and empty `result.boxes`), `result.save`, `shutil.copyfile`, and
the byte content of the annotated image `result.save` writes. -/
structure DetectEnv where
  unique_id : String
  save : ExtResult Unit
  detect : ExtResult (List PyVal)
  render : ExtResult Unit
  copy : ExtResult Unit
  annotated_content : Nat

/-- Python `collections.Counter` over the detected class ids: keys in first-seen
order, each with its number of occurrences. -/
def counterAdd (acc : List (PyVal × Nat)) (x : PyVal) : List (PyVal × Nat) :=
  if acc.any (fun p => p.1 = x) then
    acc.map (fun p => if p.1 = x then (p.1, p.2 + 1) else p)
  else
    acc ++ [(x, 1)]

/-- Python `Counter(class_ids)`. -/
def counter (class_ids : List PyVal) : List (PyVal × Nat) :=
  class_ids.foldl counterAdd []

/-- The body of the `try` block of `predict_damage` (lines 144–181 of
`app.py`): save the upload, run the model, either annotate + price or copy the
original, and render the estimate page. Returns the upload directory after the
run together with either the rendered response or the message of the raised
exception. -/
def tryBlock (st : AppState) (env : DetectEnv) (file : UploadedFile)
    (car_brand car_model : String)
    (original_filename detected_filename : String) (fs : FS) :
    FS × Except String Response :=
  let original_image_path := UPLOAD_FOLDER ++ "/" ++ original_filename
  let detected_image_path := UPLOAD_FOLDER ++ "/" ++ detected_filename
  -- 1. file.save(original_image_path)
  match env.save with
  | .exn m => (fs, .error m)
  | .ok _ =>
    let fs1 := fsWrite fs original_image_path file.content
    -- 2. results = MODEL(original_image_path)
    match env.detect with
    | .exn m => (fs1, .error m)
    | .ok class_ids =>
      if class_ids.isEmpty then
        -- no detections: copy the original to the detected path
        match env.copy with
        | .exn m => (fs1, .error m)
        | .ok _ =>
          match fsRead fs1 original_image_path with
          | none => (fs1, .error "No such file or directory")
          | some c =>
            (fsWrite fs1 detected_image_path c,
             .ok (.estimatePage
               (static_url ("uploads/" ++ original_filename))
               (static_url ("uploads/" ++ detected_filename))
               [] car_brand car_model))
      else
        -- 3. result.save(filename=detected_image_path)
        match env.render with
        | .exn m => (fs1, .error m)
        | .ok _ =>
          let fs2 := fsWrite fs1 detected_image_path env.annotated_content
          -- 4. part_prices = calculate_prices(...)
          match calculate_prices st.car_prices car_brand car_model
              (counter class_ids) with
          | .error e => (fs2, .error e.msg)
          | .ok part_prices =>
            (fs2,
             .ok (.estimatePage
               (static_url ("uploads/" ++ original_filename))
               (static_url ("uploads/" ++ detected_filename))
               part_prices car_brand car_model))

/-- The POST branch of `predict_damage` (lines 113–196 of `app.py`), with the
process state, the `secure_filename` sanitizer, the external-call oracle and
the upload directory passed explicitly. `model_loaded` is whether the global
`MODEL` is set. Returns the upload directory after the request and the
rendered response. -/
def predict_damage_post (st : AppState) (model_loaded : Bool)
    (sanitize : String → String) (env : DetectEnv) (req : PostRequest)
    (fs : FS) : FS × Response :=
  if !model_loaded then
    (fs, .predictPage (some "The YOLO model failed to load. Cannot perform damage analysis."))
  else
    match req.image with
    | none =>
      -- not all([file, car_brand, car_model])
      (fs, .predictPage (some "Please select a car and upload an image."))
    | some file =>
      if !(pyTruthyStr req.car_brand && pyTruthyStr req.car_model) then
        (fs, .predictPage (some "Please select a car and upload an image."))
      else if file.filename = "" then
        (fs, .predictPage (some "Please upload an image."))
      else
        let filename := sanitize file.filename
        if !allowed_extension filename then
          (fs, .predictPage (some "Invalid file type. Please upload a PNG, JPG, or JPEG image."))
        else
          let original_filename := "original_" ++ env.unique_id ++ "_" ++ filename
          let detected_filename := "detected_" ++ env.unique_id ++ "_" ++ filename
          match tryBlock st env file (req.car_brand.getD "") (req.car_model.getD "")
              original_filename detected_filename fs with
          | (fs', .ok resp) => (fs', resp)
          | (fs', .error m) =>
            (fs', .predictPage (some ("An unexpected error occurred during analysis: " ++ m)))

/-! ## Helper lemmas -/

/-- A value read through `pyIndex` is an element of the list. -/
theorem pyIndex_mem {xs : List String} {n : Int} {s : String}
    (h : pyIndex xs n = some s) : s ∈ xs := by
  unfold pyIndex at h
  split at h
  · exact List.get?_mem h
  · split at h
    · exact List.get?_mem h
    · exact absurd h (by simp)

/-- A part name produced by `get_part_name_from_id` is one of the seven fixed
names. -/
theorem get_part_name_mem {cid : PyVal} {name : String}
    (h : get_part_name_from_id cid = .ok (some name)) : name ∈ class_names := by
  unfold get_part_name_from_id at h
  split at h
  · exact pyIndex_mem (Except.ok.inj h)
  · exact absurd (Except.ok.inj h) (by simp)
  · exact absurd h (by simp)

/-- Inserting under a key absent from the dict appends the binding. -/
theorem dictInsert_fresh {β : Type} {d : List (String × β)} {key : String}
    (v : β) (h : key ∉ d.map Prod.fst) : dictInsert d key v = d ++ [(key, v)] := by
  have hany : (d.any fun p => p.1 = key) = false := by
    rw [List.any_eq_false]
    intro p hp
    simp only [decide_eq_true_eq]
    intro hpk
    exact h (hpk ▸ List.mem_map_of_mem Prod.fst hp)
  unfold dictInsert
  rw [hany]
  simp

/-- The keys of `dictInsert d key v` are among the keys of `d` plus `key`. -/
theorem dictInsert_keys {β : Type} {d : List (String × β)} {key k : String}
    {v : β} (h : k ∈ (dictInsert d key v).map Prod.fst) :
    k ∈ d.map Prod.fst ∨ k = key := by
  unfold dictInsert at h
  split at h
  · rw [List.map_map] at h
    obtain ⟨p, hp, hk⟩ := List.mem_map.mp h
    by_cases hpk : p.1 = key
    · right
      rw [Function.comp_apply, if_pos hpk] at hk
      exact hk.symm
    · left
      rw [Function.comp_apply, if_neg hpk] at hk
      exact hk ▸ List.mem_map_of_mem Prod.fst hp
  · rw [List.map_append] at h
    rcases List.mem_append.mp h with h | h
    · exact Or.inl h
    · right
      simpa using h


/-- Every key the `calculate_prices` loop adds comes from `class_names`. -/
theorem calcLoop_keys (mp : PriceMap) :
    ∀ (cc : List (PyVal × Nat)) (acc bd : Breakdown),
      calcLoop mp cc acc = .ok bd →
      (∀ k ∈ acc.map Prod.fst, k ∈ class_names) →
      ∀ k ∈ bd.map Prod.fst, k ∈ class_names
  | [], acc, bd, h, hacc => by
    unfold calcLoop at h
    cases h
    exact hacc
  | (cid, cnt) :: rest, acc, bd, h, hacc => by
    unfold calcLoop at h
    cases hr : get_part_name_from_id cid with
    | error e =>
      simp only [hr] at h
      exact absurd h (by simp)
    | ok r =>
      simp only [hr] at h
      cases r with
      | none =>
        exact calcLoop_keys mp rest acc bd h hacc
      | some name =>
        cases hp : dictGet mp name with
        | none =>
          simp only [hp] at h
          exact calcLoop_keys mp rest acc bd h hacc
        | some price =>
          simp only [hp] at h
          refine calcLoop_keys mp rest _ bd h ?_
          intro k hk
          rcases dictInsert_keys hk with hk | rfl
          · exact hacc k hk
          · exact get_part_name_mem hr

/-- Value of `resolvedPriced` when the class id does not resolve. -/
theorem resolvedPriced_of_unresolved {mp : PriceMap} {cid : PyVal}
    (h : get_part_name_from_id cid = .ok none) :
    resolvedPriced mp cid = none := by
  unfold resolvedPriced
  rw [h]

/-- Value of `resolvedPriced` when the class id resolves to a priced part name. -/
theorem resolvedPriced_of_priced {mp : PriceMap} {cid : PyVal} {name : String}
    {price : Int} (h1 : get_part_name_from_id cid = .ok (some name))
    (h2 : dictGet mp name = some price) :
    resolvedPriced mp cid = some (name, price) := by
  unfold resolvedPriced
  simp only [h1, h2]
  rfl

/-- Value of `resolvedPriced` when the class id resolves to an unpriced part name. -/
theorem resolvedPriced_of_unpriced {mp : PriceMap} {cid : PyVal} {name : String}
    (h1 : get_part_name_from_id cid = .ok (some name))
    (h2 : dictGet mp name = none) :
    resolvedPriced mp cid = none := by
  unfold resolvedPriced
  simp only [h1, h2]
  rfl

/-- Unfolding `specBreakdown` one step. -/
theorem specBreakdown_cons (mp : PriceMap) (p : PyVal × Nat)
    (cc : List (PyVal × Nat)) :
    specBreakdown mp (p :: cc) =
      match resolvedPriced mp p.1 with
      | some q => (q.1, ⟨p.2, q.2, q.2 * p.2⟩) :: specBreakdown mp cc
      | none => specBreakdown mp cc := by
  unfold specBreakdown
  rw [List.filterMap_cons]
  cases resolvedPriced mp p.1 <;> rfl

/-- Unfolding `resolvedNames` one step. -/
theorem resolvedNames_cons (mp : PriceMap) (p : PyVal × Nat)
    (cc : List (PyVal × Nat)) :
    resolvedNames mp (p :: cc) =
      match resolvedPriced mp p.1 with
      | some q => q.1 :: resolvedNames mp cc
      | none => resolvedNames mp cc := by
  unfold resolvedNames
  rw [List.filterMap_cons]
  cases resolvedPriced mp p.1 <;> rfl

/-- The `calculate_prices` loop, started on any partial breakdown whose keys
are disjoint from the part names the remaining class ids will contribute,
appends exactly the spec-side breakdown. -/
theorem calcLoop_append (mp : PriceMap) :
    ∀ (cc : List (PyVal × Nat)) (acc : Breakdown),
      (∀ p ∈ cc, ∃ r, get_part_name_from_id p.1 = Except.ok r) →
      (resolvedNames mp cc).Nodup →
      (∀ n ∈ resolvedNames mp cc, n ∉ acc.map Prod.fst) →
      calcLoop mp cc acc = .ok (acc ++ specBreakdown mp cc)
  | [], acc, _, _, _ => by
    unfold calcLoop specBreakdown
    simp
  | (cid, cnt) :: rest, acc, hok, hnodup, hfresh => by
    obtain ⟨r, hr⟩ := hok (cid, cnt) (List.mem_cons_self _ _)
    have hokRest : ∀ p ∈ rest, ∃ r, get_part_name_from_id p.1 = Except.ok r :=
      fun p hp => hok p (List.mem_cons_of_mem _ hp)
    unfold calcLoop
    cases r with
    | none =>
      have hres := @resolvedPriced_of_unresolved mp _ hr
      simp only [resolvedNames_cons, hres] at hnodup hfresh
      simp only [specBreakdown_cons, hres, hr]
      exact calcLoop_append mp rest acc hokRest hnodup hfresh
    | some name =>
      cases hprice : dictGet mp name with
      | none =>
        have hres := resolvedPriced_of_unpriced hr hprice
        simp only [resolvedNames_cons, hres] at hnodup hfresh
        simp only [specBreakdown_cons, hres, hr, hprice]
        exact calcLoop_append mp rest acc hokRest hnodup hfresh
      | some price =>
        have hres := resolvedPriced_of_priced hr hprice
        simp only [resolvedNames_cons, hres] at hnodup hfresh
        simp only [specBreakdown_cons, hres, hr, hprice]
        have hnameRest : name ∉ resolvedNames mp rest := by
          simpa using (List.nodup_cons.mp hnodup).1
        have hnodupRest : (resolvedNames mp rest).Nodup :=
          (List.nodup_cons.mp hnodup).2
        have hnameAcc : name ∉ acc.map Prod.fst :=
          hfresh name (List.mem_cons_self _ _)
        rw [dictInsert_fresh _ hnameAcc]
        have hfreshRest : ∀ n ∈ resolvedNames mp rest,
            n ∉ (acc ++ [(name, (⟨cnt, price, price * cnt⟩ : PriceEntry))]).map Prod.fst := by
          intro n hn
          rw [List.map_append, List.mem_append]
          rintro (h | h)
          · exact hfresh n (List.mem_cons_of_mem _ hn) h
          · simp only [List.map_cons, List.map_nil, List.mem_singleton] at h
            exact hnameRest (h ▸ hn)
        rw [calcLoop_append mp rest _ hokRest hnodupRest hfreshRest]
        simp

/-- Reading back a freshly written file yields its content. -/
theorem fsRead_fsWrite_same (fs : FS) (path : String) (c : Nat) :
    fsRead (fsWrite fs path c) path = some c := by
  unfold fsRead fsWrite
  rw [List.find?_cons_of_pos _ (by simp)]

/-- Variant of `fsRead_fsWrite_same` on the cons form of the directory. -/
theorem fsRead_cons_same (fs : FS) (path : String) (c : Nat) :
    fsRead ((path, c) :: fs) path = some c := by
  unfold fsRead
  rw [List.find?_cons_of_pos _ (by simp)]

/-- Once `file.save` has succeeded, the original upload stays in the upload
directory whatever happens later in the `try` block. -/
theorem tryBlock_keeps_original (st : AppState) (env : DetectEnv)
    (file : UploadedFile) (b m ofn dfn : String) (fs : FS)
    (hsave : env.save = .ok ()) :
    (UPLOAD_FOLDER ++ "/" ++ ofn, file.content) ∈
      (tryBlock st env file b m ofn dfn fs).1 := by
  unfold tryBlock
  simp only [hsave]
  cases hdet : env.detect with
  | exn msg => simp [fsWrite]
  | ok cids =>
    by_cases hc : cids.isEmpty
    · simp only [hc, if_true]
      cases hcopy : env.copy with
      | exn msg => simp [fsWrite]
      | ok u => simp [fsRead_cons_same, fsWrite]
    · simp only [hc, if_false]
      cases hren : env.render with
      | exn msg => simp [fsWrite]
      | ok u =>
        cases hcalc : calculate_prices st.car_prices b m (counter cids) with
        | error e => simp [fsWrite]
        | ok pp => simp [fsWrite]

/-- A validated request reaches the `try` block: the handler's result is the
`try` block's result, with an error routed to the upload form carrying the
generic message. -/
theorem predict_damage_post_valid (st : AppState) (sanitize : String → String)
    (env : DetectEnv) (req : PostRequest) (fs : FS) (file : UploadedFile)
    (himg : req.image = some file)
    (hbm : (pyTruthyStr req.car_brand && pyTruthyStr req.car_model) = true)
    (hfn : ¬ file.filename = "")
    (hext : allowed_extension (sanitize file.filename) = true) :
    predict_damage_post st true sanitize env req fs =
      match tryBlock st env file (req.car_brand.getD "") (req.car_model.getD "")
          ("original_" ++ env.unique_id ++ "_" ++ sanitize file.filename)
          ("detected_" ++ env.unique_id ++ "_" ++ sanitize file.filename) fs with
      | (fs', .ok resp) => (fs', resp)
      | (fs', .error m) =>
        (fs', .predictPage
          (some ("An unexpected error occurred during analysis: " ++ m))) := by
  unfold predict_damage_post
  simp only [himg, hbm, hext, Bool.not_true, Bool.not_false, Bool.false_eq_true,
    if_false, if_neg hfn]

/-! ## Claim theorems -/

/-- C1 (amended): for every brand and model present in the price table and
every class-count mapping whose class ids all pass `get_part_name_from_id`
without an exception and whose priced resolved part names are pairwise
distinct, `calculate_prices` returns exactly one breakdown entry per class id
that resolves to a part name priced in the model's price map, in iteration
order, with `count` the class-count value and `total = unitPrice * count`;
class ids resolving to an unpriced name and unresolved class ids contribute
nothing. -/
theorem C1_calculate_prices_breakdown (tbl : PriceTable) (b m : String)
    (bm : ModelMap) (mp : PriceMap) (cc : List (PyVal × Nat))
    (hb : dictGet tbl b = some bm) (hm : dictGet bm m = some mp)
    (hok : ∀ p ∈ cc, ∃ r, get_part_name_from_id p.1 = Except.ok r)
    (hnodup : (resolvedNames mp cc).Nodup) :
    calculate_prices tbl b m cc = .ok (specBreakdown mp cc) := by
  unfold calculate_prices
  simp only [hb, hm]
  simpa using calcLoop_append mp cc [] hok hnodup (by simp)

/-- C1 (counterexample to the claim as stated): class ids `6` and `-1`
both resolve to the priced part name `"Windshield"` (the second through
Python's negative indexing), so the breakdown has a single entry for the two
of them, whose count `2` is not the class-count value `1` of class id `6` —
not one entry per resolving class id. -/
theorem C1_duplicate_resolution_counterexample :
    get_part_name_from_id (.int 6) = .ok (some "Windshield") ∧
    get_part_name_from_id (.int (-1)) = .ok (some "Windshield") ∧
    dictGet [("Windshield", (50 : Int))] "Windshield" = some 50 ∧
    calculate_prices [("B", [("M", [("Windshield", 50)])])] "B" "M"
      [(.int 6, 1), (.int (-1), 2)] =
      .ok [("Windshield", ⟨2, 50, 100⟩)] :=
  ⟨rfl, rfl, rfl, rfl⟩

/-- Witness for C1: a concrete run with a priced, an unresolved and an
unpriced class id. -/
theorem C1_calculate_prices_breakdown_witness :
    calculate_prices [("B", [("M", [("Bumper", 400), ("Door", 150)])])] "B" "M"
      [(.int 1, 3), (.int 9, 1), (.int 2, 2)] =
      .ok [("Bumper", ⟨3, 400, 1200⟩)] :=
  Eq.trans
    (C1_calculate_prices_breakdown _ "B" "M" _ _ _ rfl rfl
      (by intro p hp
          fin_cases hp <;> exact ⟨_, rfl⟩)
      (by decide))
    (by rfl)

/-- C2 (amended): an integer class identifier out of range even for
Python's end-relative indexing (`n ≥ 7` or `n < -7`) resolves to `none`
without an exception (`IndexError` is caught), and so does `None`
(`TypeError` is caught). (As stated the claim fails: a negative in-range id
resolves to a part name, and a non-numeral string raises `ValueError`.) -/
theorem C2_out_of_range_resolution (n : Int) (h : 7 ≤ n ∨ n < -7) :
    get_part_name_from_id (.int n) = .ok none ∧
    get_part_name_from_id .pynone = .ok none := by
  refine ⟨?_, rfl⟩
  show Except.ok (pyIndex class_names n) = Except.ok none
  congr 1
  have hlen : class_names.length = 7 := rfl
  unfold pyIndex
  rcases h with h | h
  · rw [if_pos (by omega)]
    apply List.get?_eq_none.mpr
    omega
  · rw [if_neg (by omega), if_neg (by rw [hlen]; omega)]

/-- C2 (counterexample to the claim as stated): the non-numeric class
identifier `"abc"` makes `get_part_name_from_id` raise `ValueError`
(`int("abc")` raises it and the `except` clause only catches `IndexError` and
`TypeError`), and the out-of-range identifier `-1` resolves to
`"Windshield"` via Python's negative indexing instead of `None`. -/
theorem C2_counterexample :
    get_part_name_from_id (.str "abc") = .error .valueError ∧
    get_part_name_from_id (.int (-1)) = .ok (some "Windshield") :=
  ⟨rfl, rfl⟩

/-- Witness for C2 at `n = 7`. -/
theorem C2_out_of_range_resolution_witness :
    get_part_name_from_id (.int 7) = .ok none ∧
    get_part_name_from_id .pynone = .ok none :=
  C2_out_of_range_resolution 7 (Or.inl (by omega))

/-- C3: for every brand absent from the price table, and for every model
absent from its brand's entry, `calculate_prices` returns an empty breakdown
without raising, whatever the class-count mapping is. -/
theorem C3_unknown_brand_model_empty (tbl : PriceTable) (b m : String)
    (cc : List (PyVal × Nat))
    (h : dictGet tbl b = none ∨
      ∃ bm, dictGet tbl b = some bm ∧ dictGet bm m = none) :
    calculate_prices tbl b m cc = .ok [] := by
  unfold calculate_prices
  rcases h with h | ⟨bm, h1, h2⟩
  · simp only [h]
  · simp only [h1, h2]

/-- Witness for C3: unknown brand, with a class-count mapping that would
raise if it were ever iterated. -/
theorem C3_unknown_brand_model_empty_witness :
    calculate_prices [("Maruti", [("Swift", [("Bonnet", 100)])])] "Tata" "Nexon"
      [(.str "abc", 1)] = .ok [] :=
  C3_unknown_brand_model_empty _ "Tata" "Nexon" _ (Or.inl rfl)

/-- C4: with class counts `{0: 2, 5: 1}` and the matching brand/model
priced `{"Bonnet": 100, "Light": 50}`, `calculate_prices` returns exactly
`{"Bonnet": {count 2, price 100, total 200}, "Light": {count 1, price 50,
total 50}}`. -/
theorem C4_concrete_breakdown :
    calculate_prices [("Maruti", [("Swift", [("Bonnet", 100), ("Light", 50)])])]
      "Maruti" "Swift" [(.int 0, 2), (.int 5, 1)] =
      .ok [("Bonnet", ⟨2, 100, 200⟩), ("Light", ⟨1, 50, 50⟩)] :=
  rfl

/-- C8: when the price JSON file is missing or malformed, `load_data`
leaves the price table empty (as initialized at module load), so every
subsequent `calculate_prices` call returns an empty breakdown without
raising. -/
theorem C8_load_failure_soft (r : LoadResult)
    (h : r = .fileNotFound ∨ r = .jsonDecodeError) :
    (load_data r initState).car_prices = [] ∧
    ∀ (b m : String) (cc : List (PyVal × Nat)),
      calculate_prices (load_data r initState).car_prices b m cc = .ok [] := by
  have hst : load_data r initState = initState := by
    rcases h with h | h <;> (subst h; rfl)
  rw [hst]
  exact ⟨rfl, fun b m cc => rfl⟩

/-- Witness for C8 on a missing file. -/
theorem C8_load_failure_soft_witness :
    (load_data .fileNotFound initState).car_prices = [] ∧
    calculate_prices (load_data .fileNotFound initState).car_prices
      "Tata" "Nexon" [(.int 0, 1)] = .ok [] :=
  ⟨(C8_load_failure_soft .fileNotFound (Or.inl rfl)).1,
   (C8_load_failure_soft .fileNotFound (Or.inl rfl)).2 "Tata" "Nexon" [(.int 0, 1)]⟩

/-- C9: after a successful `load_data`, `AVAILABLE_BRANDS` is a sorted
permutation of the top-level (brand) keys of `CAR_PRICES` — that is, exactly
the sorted list of the price table's brand keys. -/
theorem C9_available_brands_sorted (table : PriceTable) (st : AppState) :
    List.Sorted (· ≤ ·) (load_data (.parsed table) st).available_brands ∧
    (load_data (.parsed table) st).available_brands.Perm
      ((load_data (.parsed table) st).car_prices.map Prod.fst) := by
  constructor
  · exact List.sorted_insertionSort _ _
  · exact List.perm_insertionSort _ _

/-- C10: `calculate_prices` only reads the price table and the class-count
mapping (the state-passing run returns both unchanged), and every key of the
breakdown it builds is one of the seven fixed part names. -/
theorem C10_frame_and_keys (tbl : PriceTable) (b m : String)
    (cc : List (PyVal × Nat)) :
    (calculate_prices_run tbl b m cc).1 = (tbl, cc) ∧
    ∀ bd, (calculate_prices_run tbl b m cc).2 = .ok bd →
      ∀ k ∈ bd.map Prod.fst, k ∈ class_names := by
  refine ⟨rfl, fun bd hbd => ?_⟩
  have hbd' : calculate_prices tbl b m cc = .ok bd := hbd
  unfold calculate_prices at hbd'
  rcases hB : dictGet tbl b with _ | bm
  · simp only [hB] at hbd'
    cases hbd'
    simp
  · simp only [hB] at hbd'
    rcases hM : dictGet bm m with _ | mp
    · simp only [hM] at hbd'
      cases hbd'
      simp
    · simp only [hM] at hbd'
      exact calcLoop_keys mp cc [] bd hbd' (by simp)

/-- Witness for C10 on a concrete priced detection. -/
theorem C10_frame_and_keys_witness :
    (calculate_prices_run [("B", [("M", [("Fender", 70)])])] "B" "M"
      [(.int 4, 2)]).1 = ([("B", [("M", [("Fender", 70)])])], [(.int 4, 2)]) ∧
    "Fender" ∈ class_names :=
  ⟨(C10_frame_and_keys _ "B" "M" _).1,
   (C10_frame_and_keys [("B", [("M", [("Fender", 70)])])] "B" "M"
      [(.int 4, 2)]).2 [("Fender", ⟨2, 70, 140⟩)] rfl "Fender" (by decide)⟩

/-- C5: a POST whose uploaded file's sanitized filename does not end in
`.png`/`.jpg`/`.jpeg` case-insensitively never reaches the processing block:
the upload form is re-rendered with an inline error message, the HTTP status
is 200, and the upload directory is unchanged (no file written). -/
theorem C5_bad_extension_rejected (st : AppState) (model_loaded : Bool)
    (sanitize : String → String) (env : DetectEnv) (req : PostRequest)
    (fs : FS)
    (hext : ∀ file, req.image = some file →
      allowed_extension (sanitize file.filename) = false) :
    ∃ msg, predict_damage_post st model_loaded sanitize env req fs =
        (fs, .predictPage (some msg)) ∧
      Response.status (.predictPage (some msg)) = 200 := by
  obtain ⟨image, brandO, modelO⟩ := req
  cases model_loaded with
  | false => exact ⟨_, rfl, rfl⟩
  | true =>
    cases image with
    | none => exact ⟨_, rfl, rfl⟩
    | some file =>
      have hf := hext file rfl
      cases hbm : (pyTruthyStr brandO && pyTruthyStr modelO) with
      | false =>
        refine ⟨"Please select a car and upload an image.", ?_, rfl⟩
        unfold predict_damage_post
        simp [hbm]
      | true =>
        by_cases hfn : file.filename = ""
        · refine ⟨"Please upload an image.", ?_, rfl⟩
          unfold predict_damage_post
          simp [hbm, hfn]
        · refine ⟨"Invalid file type. Please upload a PNG, JPG, or JPEG image.", ?_, rfl⟩
          unfold predict_damage_post
          simp [hbm, hfn, hf]

/-- Witness for C5: uploading `photo.GIF` (with brand and model present) is
rejected with an inline error, status 200, and nothing written. -/
theorem C5_bad_extension_rejected_witness :
    ∃ msg, predict_damage_post initState true id
        ⟨"ab12", .ok (), .ok [], .ok (), .ok (), 99⟩
        ⟨some ⟨"photo.GIF", 7⟩, some "Tata", some "Nexon"⟩ [] =
        ([], .predictPage (some msg)) ∧
      Response.status (.predictPage (some msg)) = 200 :=
  C5_bad_extension_rejected initState true id
    ⟨"ab12", .ok (), .ok [], .ok (), .ok (), 99⟩
    ⟨some ⟨"photo.GIF", 7⟩, some "Tata", some "Nexon"⟩ []
    (by intro file h
        cases h
        decide)

/-- C6: once validation has passed, any exception raised in the
save/detect/price block surfaces as the upload form with the generic message
carrying the exception's text, and side effects already performed are kept:
if `file.save` succeeded, the original upload is still in the upload
directory. -/
theorem C6_exception_boundary (st : AppState) (sanitize : String → String)
    (env : DetectEnv) (req : PostRequest) (fs fsAfter : FS)
    (file : UploadedFile) (msg : String)
    (himg : req.image = some file)
    (hbm : (pyTruthyStr req.car_brand && pyTruthyStr req.car_model) = true)
    (hfn : ¬ file.filename = "")
    (hext : allowed_extension (sanitize file.filename) = true)
    (htry : tryBlock st env file (req.car_brand.getD "") (req.car_model.getD "")
        ("original_" ++ env.unique_id ++ "_" ++ sanitize file.filename)
        ("detected_" ++ env.unique_id ++ "_" ++ sanitize file.filename) fs =
        (fsAfter, .error msg)) :
    predict_damage_post st true sanitize env req fs =
      (fsAfter, .predictPage
        (some ("An unexpected error occurred during analysis: " ++ msg))) ∧
    (env.save = .ok () →
      (UPLOAD_FOLDER ++ "/" ++
          ("original_" ++ env.unique_id ++ "_" ++ sanitize file.filename),
        file.content) ∈ fsAfter) := by
  constructor
  · rw [predict_damage_post_valid st sanitize env req fs file himg hbm hfn hext,
      htry]
  · intro hsave
    have hkeep := tryBlock_keeps_original st env file (req.car_brand.getD "")
      (req.car_model.getD "")
      ("original_" ++ env.unique_id ++ "_" ++ sanitize file.filename)
      ("detected_" ++ env.unique_id ++ "_" ++ sanitize file.filename) fs hsave
    rw [htry] at hkeep
    exact hkeep

/-- Witness for C6: the model call raises `"boom"` after the original file was
saved; the form is re-rendered with the generic message and the original file
remains. -/
theorem C6_exception_boundary_witness :
    predict_damage_post initState true id
      ⟨"ab12", .ok (), .exn "boom", .ok (), .ok (), 99⟩
      ⟨some ⟨"car.jpg", 7⟩, some "Tata", some "Nexon"⟩ [] =
      ([("static/uploads/original_ab12_car.jpg", 7)],
       .predictPage
         (some "An unexpected error occurred during analysis: boom")) ∧
    ("static/uploads/original_ab12_car.jpg", 7) ∈
      [("static/uploads/original_ab12_car.jpg", (7 : Nat))] := by
  have h := C6_exception_boundary initState id
    ⟨"ab12", .ok (), .exn "boom", .ok (), .ok (), 99⟩
    ⟨some ⟨"car.jpg", 7⟩, some "Tata", some "Nexon"⟩ []
    [("static/uploads/original_ab12_car.jpg", 7)] ⟨"car.jpg", 7⟩ "boom"
    rfl (by decide) (by decide) (by decide) rfl
  exact ⟨h.1, h.2 rfl⟩

/-- C7: a validated upload whose detection yields zero detections gets the
original file copied byte-for-byte to the annotated path: the estimate page is
rendered with both image URLs, the upload directory holds both paths with the
same content, and the price breakdown is empty. -/
theorem C7_no_detection_copies_original (st : AppState)
    (sanitize : String → String) (env : DetectEnv) (req : PostRequest)
    (fs : FS) (file : UploadedFile)
    (himg : req.image = some file)
    (hbm : (pyTruthyStr req.car_brand && pyTruthyStr req.car_model) = true)
    (hfn : ¬ file.filename = "")
    (hext : allowed_extension (sanitize file.filename) = true)
    (hsave : env.save = .ok ()) (hdet : env.detect = .ok [])
    (hcopy : env.copy = .ok ()) :
    predict_damage_post st true sanitize env req fs =
      (fsWrite
        (fsWrite fs
          (UPLOAD_FOLDER ++ "/" ++
            ("original_" ++ env.unique_id ++ "_" ++ sanitize file.filename))
          file.content)
        (UPLOAD_FOLDER ++ "/" ++
          ("detected_" ++ env.unique_id ++ "_" ++ sanitize file.filename))
        file.content,
       .estimatePage
         (static_url ("uploads/" ++
           ("original_" ++ env.unique_id ++ "_" ++ sanitize file.filename)))
         (static_url ("uploads/" ++
           ("detected_" ++ env.unique_id ++ "_" ++ sanitize file.filename)))
         [] (req.car_brand.getD "") (req.car_model.getD "")) ∧
    (UPLOAD_FOLDER ++ "/" ++
        ("original_" ++ env.unique_id ++ "_" ++ sanitize file.filename),
      file.content) ∈ (predict_damage_post st true sanitize env req fs).1 ∧
    (UPLOAD_FOLDER ++ "/" ++
        ("detected_" ++ env.unique_id ++ "_" ++ sanitize file.filename),
      file.content) ∈ (predict_damage_post st true sanitize env req fs).1 := by
  have hmain : predict_damage_post st true sanitize env req fs =
      (fsWrite
        (fsWrite fs
          (UPLOAD_FOLDER ++ "/" ++
            ("original_" ++ env.unique_id ++ "_" ++ sanitize file.filename))
          file.content)
        (UPLOAD_FOLDER ++ "/" ++
          ("detected_" ++ env.unique_id ++ "_" ++ sanitize file.filename))
        file.content,
       .estimatePage
         (static_url ("uploads/" ++
           ("original_" ++ env.unique_id ++ "_" ++ sanitize file.filename)))
         (static_url ("uploads/" ++
           ("detected_" ++ env.unique_id ++ "_" ++ sanitize file.filename)))
         [] (req.car_brand.getD "") (req.car_model.getD "")) := by
    rw [predict_damage_post_valid st sanitize env req fs file himg hbm hfn hext]
    unfold tryBlock
    simp only [hsave, hdet, hcopy, List.isEmpty_nil, if_true,
      fsRead_fsWrite_same]
  refine ⟨hmain, ?_, ?_⟩ <;> rw [hmain] <;> simp [fsWrite]

/-- Witness for C7: a zero-detection run on a concrete upload; both stored
files carry the original bytes and the breakdown is empty. -/
theorem C7_no_detection_copies_original_witness :
    predict_damage_post initState true id
      ⟨"ab12", .ok (), .ok [], .ok (), .ok (), 99⟩
      ⟨some ⟨"car.jpg", 7⟩, some "Tata", some "Nexon"⟩ [] =
      ([("static/uploads/detected_ab12_car.jpg", 7),
        ("static/uploads/original_ab12_car.jpg", 7)],
       .estimatePage "/static/uploads/original_ab12_car.jpg"
         "/static/uploads/detected_ab12_car.jpg" [] "Tata" "Nexon") := by
  have h := C7_no_detection_copies_original initState id
    ⟨"ab12", .ok (), .ok [], .ok (), .ok (), 99⟩
    ⟨some ⟨"car.jpg", 7⟩, some "Tata", some "Nexon"⟩ [] ⟨"car.jpg", 7⟩
    rfl (by decide) (by decide) (by decide) rfl rfl rfl
  exact h.1.trans (by decide)

end AccidentApp
